import Mathlib

/-!
Verification development for `cwcu.py`, a status-panel renderer for a small
cooling-loop controller (128×96 SPI display): four equipment-state tiles, a
scrolling temperature history graph, a text ticker, and a multi-rate main loop.

The Python source is shallowly embedded here:
* images (`PIL.Image`) become `Img`: a width, a height, and a pixel map
  `ℕ → ℕ → Color`; drawing primitives are pure `Img → Img` functions that
  clip to the image bounds exactly as Pillow does;
* Python floats become `ℚ` (the arithmetic exercised by the properties below
  is exact at these magnitudes);
* Python `int(...)` truncation becomes `pyInt`, `//` becomes `Int.ediv`
  (floor division) and `%` becomes `Int.emod`, matching Python's semantics;
* the font is an external collaborator (`PIL.ImageFont`); it is embedded as
  an explicit `FontM` record of metric/render functions that every drawing
  routine takes as a parameter;
* `None`-able sensor readings become `Option ℚ`.

Definition names follow the source (`temp_to_color_bgr`, `graph_tick`,
`draw_bottom_bar`, `make_frame`, ...).
-/

/-- An RGB (or BGR — the source mixes both orders and converts explicitly)
color triple, channels 0..255. -/
abbrev Color := ℕ × ℕ × ℕ

/-- Python `int(q)`: truncation toward zero. For the nonnegative quantities
the source applies it to, this is the floor. -/
def pyInt (q : ℚ) : ℤ := if 0 ≤ q then ⌊q⌋ else -⌊-q⌋

/-- Python 3 `round(q)` at integer precision: round half to even
("banker's rounding").  The source never calls `round`; this definition
follows the spec's words (claim C2 demands a bar height of
`round(t × (bufferHeight − 1))`) and exists only to compare the spec's
formula against the code's `int(...)` truncation. -/
def pyRound (q : ℚ) : ℤ :=
  if q - ⌊q⌋ < 1/2 then ⌊q⌋
  else if 1/2 < q - ⌊q⌋ then ⌊q⌋ + 1
  else if ⌊q⌋ % 2 = 0 then ⌊q⌋ else ⌊q⌋ + 1

/-- A raster image: width, height, and a pixel map.  Pixels outside
`[0,w) × [0,h)` are irrelevant (every drawing operation clips, as Pillow
does); they keep whatever the underlying map holds. -/
structure Img where
  w : ℕ
  h : ℕ
  px : ℕ → ℕ → Color

instance : Inhabited Img := ⟨⟨0, 0, fun _ _ => (0, 0, 0)⟩⟩

/-- `Image.new("RGB", (w, h), c)`. -/
def Img.new (w h : ℕ) (c : Color) : Img := ⟨w, h, fun _ _ => c⟩

/-- `img.crop((x0, y0, x1, y1))`: the rectangle `[x0,x1) × [y0,y1)`. -/
def Img.crop (g : Img) (x0 y0 x1 y1 : ℕ) : Img :=
  ⟨x1 - x0, y1 - y0, fun x y => g.px (x + x0) (y + y0)⟩

/-- `img.paste(src, (x0, y0))` with nonnegative offsets, clipped to `img`'s
bounds. -/
def Img.pasteN (g src : Img) (x0 y0 : ℕ) : Img :=
  { g with px := fun x y =>
      if x0 ≤ x ∧ x < x0 + src.w ∧ y0 ≤ y ∧ y < y0 + src.h ∧ x < g.w ∧ y < g.h then
        src.px (x - x0) (y - y0)
      else g.px x y }

-- ================== CONFIG (src/cwcu.py lines 16-48) ==================

def AMBIENT_DEFAULT : ℚ := 20
def TEMP_MAX_DEFAULT : ℚ := 50
abbrev STEP_W : ℕ := 3
def GRID_COLOR_V : Color := (30, 30, 30)
def GRID_COLOR_H : Color := (30, 30, 30)
abbrev H_GRID_STEP : ℕ := 3
def BOTTOM_LABEL : String := "Temp."
def TICKER_SPACER_PX : ℤ := 24
def TICKER_SPEED_PX : ℤ := 1
def LABEL_FG_TOP : Color := (230, 230, 230)
def LABEL_FG_BOTTOM : Color := (170, 170, 170)
def LABEL_BG : Color := (0, 0, 0)
def LABEL_ALPHA : ℕ := 140

-- ================== color gradient (lines 170-208) ==================

/-- `def lerp(a, b, t): return int(a + (b - a) * t + 0.5)`.  In every call the
result is a channel value in `0..255`, hence nonnegative; `Int.toNat` is the
identity there.

The program computes this in IEEE-double arithmetic while this model is
exact-rational, so an interior interpolation point whose exact value lands on
a half-integer boundary can differ from the program by one count in the last
unit (e.g. `u = (0.5 - 1/3)/(1/3)` rounds up to `0.5000000000000001` in
doubles).  The theorems below therefore evaluate `lerp` to a concrete channel
value only where double and rational arithmetic agree exactly — at the
gradient stops themselves (`u ∈ {0, 1}`, including the double values
`0.0` and `1.0000000000000002` the program reaches there, whose products
round back to the stop channels) — and leave every interior gradient color
symbolic. -/
def lerp (a b : ℕ) (t : ℚ) : ℕ :=
  (pyInt ((a : ℚ) + ((b : ℚ) - (a : ℚ)) * t + 1/2)).toNat

-- the four gradient stops, in BGR channel order (lines 174-177)
def BAR_BLUE : Color := (255, 0, 0)
def BAR_GREEN : Color := (0, 255, 0)
def BAR_YELLOW : Color := (0, 255, 255)
def BAR_RED : Color := (0, 0, 255)

/-- `bgr_to_rgb` (line 179). -/
def bgr_to_rgb (c : Color) : Color := (c.2.2, c.2.1, c.1)

/-- Channel-wise `lerp` between two stops (lines 204-208). -/
def lerp3 (c0 c1 : Color) (u : ℚ) : Color :=
  (lerp c0.1 c1.1 u, lerp c0.2.1 c1.2.1 u, lerp c0.2.2 c1.2.2 u)

/-- The three-segment piecewise interpolation of `temp_to_color_bgr`
(lines 193-208), as a function of the normalized position `t`. -/
def gradient_color (t : ℚ) : Color :=
  if t ≤ 1/3 then
    lerp3 BAR_RED BAR_YELLOW (t / (1/3))
  else if t ≤ 2/3 then
    lerp3 BAR_YELLOW BAR_GREEN ((t - 1/3) / (1/3))
  else
    lerp3 BAR_GREEN BAR_BLUE ((t - 2/3) / (1/3))

/-- `temp_to_color_bgr(temp, ambient, tmax)` (lines 182-208): `None` maps to
the neutral gray `(120, 120, 120)`; otherwise the value is normalized to
`t ∈ [0, 1]` over `[ambient, tmax]` (`t = 1` when `tmax ≤ ambient`) and fed
through the piecewise gradient. -/
def temp_to_color_bgr (temp : Option ℚ) (ambient tmax : ℚ) : Color :=
  match temp with
  | none => (120, 120, 120)
  | some v =>
    gradient_color (if tmax ≤ ambient then 1 else max 0 (min 1 ((v - ambient) / (tmax - ambient))))

-- ================== static geometry (lines 119-167) ==================

abbrev WIDTH : ℕ := 128
abbrev HEIGHT : ℕ := 96
/-- `line_y = 13 + (72 // 2)` (line 127). -/
abbrev line_y : ℕ := 13 + 72 / 2
/-- `line_y_upd = 18 + (72 // 2)` (line 128). -/
abbrev line_y_upd : ℕ := 18 + 72 / 2
/-- Scrolling-graph area, `AX0, AY0, AX1, AY1 = 1, line_y_upd + 1, 122, 86`
(line 166). -/
abbrev AX0 : ℕ := 1
abbrev AY0 : ℕ := line_y_upd + 1
abbrev AX1 : ℕ := 122
abbrev AY1 : ℕ := 86
/-- `GRID_W, GRID_H = AX1 - AX0 + 1, AY1 - AY0 + 1` (line 167): 122 × 32. -/
abbrev GRID_W : ℕ := AX1 - AX0 + 1
abbrev GRID_H : ℕ := AY1 - AY0 + 1

/-- `graph_img = Image.new("RGB", (GRID_W, GRID_H), "black")` (line 168): the
graph buffer's initial contents. -/
def graph_img_init : Img := Img.new GRID_W GRID_H (0, 0, 0)

-- ================== graph drawing primitives ==================

/-- `draw.line((x0, y, x1, y))`: a horizontal line, endpoints inclusive,
clipped to the image. -/
def Img.lineH (g : Img) (x0 x1 y : ℕ) (c : Color) : Img :=
  { g with px := fun x y' =>
      if x0 ≤ x ∧ x ≤ x1 ∧ y' = y ∧ x < g.w ∧ y < g.h then c else g.px x y' }

/-- `draw.line((x, y0, x, y1))`: a vertical line, endpoints inclusive,
clipped to the image. -/
def Img.lineV (g : Img) (x y0 y1 : ℕ) (c : Color) : Img :=
  { g with px := fun x' y =>
      if x' = x ∧ y0 ≤ y ∧ y ≤ y1 ∧ x < g.w ∧ y < g.h then c else g.px x' y }

/-- `draw_h_grid_segment(draw, x0, x1, h)` (lines 210-213): horizontal grid
lines at every `H_GRID_STEP`-th row (`for y in range(0, h, H_GRID_STEP)`),
drawn only in the column range `[x0, x1]`.  `h` is always the target image's
height at the call site, so `y % H_GRID_STEP = 0 ∧ y < g.h` enumerates
exactly the rows the Python loop draws. -/
def draw_h_grid_segment (g : Img) (x0 x1 : ℕ) : Img :=
  { g with px := fun x y =>
      if x0 ≤ x ∧ x ≤ x1 ∧ y % H_GRID_STEP = 0 ∧ x < g.w ∧ y < g.h then GRID_COLOR_H
      else g.px x y }

-- ================== graph_tick (lines 238-276) ==================

/-- The bar-height fraction of `graph_tick` (lines 257-261):
`clamp((value - ambient) / (tmax - ambient), 0, 1)` when the value is present
and `tmax > ambient`, else `0.0`. -/
def bar_frac (temp : Option ℚ) (ambient tmax : ℚ) : ℚ :=
  match temp with
  | some v => if ambient < tmax then max 0 (min 1 ((v - ambient) / (tmax - ambient))) else 0
  | none => 0

/-- `bar_h = int(frac * (h - 1))` (line 262).  `frac ≥ 0`, so the truncation
is a floor and the result a natural number. -/
def bar_height (temp : Option ℚ) (ambient tmax : ℚ) (h : ℕ) : ℕ :=
  (pyInt (bar_frac temp ambient tmax * ((h : ℚ) - 1))).toNat

/-- `graph_tick(temp_value, ambient, tmax)` (lines 238-276): scroll the
buffer left by `STEP_W` columns, clear the freed rightmost columns to black,
draw horizontal grid lines in them, draw the bottom-anchored temperature bar
(2 px wide), and finish with the 1-px vertical grid line in the last
column. -/
def graph_tick (g : Img) (temp : Option ℚ) (ambient tmax : ℚ) : Img :=
  let w := g.w
  let h := g.h
  -- scroll left: paste(crop((STEP_W, 0, w, h)), (0, 0)), then clear the
  -- rightmost STEP_W columns with a black segment (lines 243-247)
  let g1 := if 0 < STEP_W then
      (g.pasteN (g.crop STEP_W 0 w h) 0 0).pasteN (Img.new STEP_W h (0, 0, 0)) (w - STEP_W) 0
    else g
  -- horizontal grid lines in the new rightmost segment (lines 252-255);
  -- seg_x1 = w - 2 leaves the last column for the vertical grid
  let g2 := if w - STEP_W ≤ w - 2 then draw_h_grid_segment g1 (w - STEP_W) (w - 2) else g1
  -- bar height and color (lines 257-265)
  let bar_h := bar_height temp ambient tmax h
  let y0 := (h - 1) - bar_h
  let col_rgb := bgr_to_rgb (temp_to_color_bgr temp ambient tmax)
  -- 2-px bar in columns w-STEP_W .. w-STEP_W+1, skipping the grid column
  -- (lines 267-273): bar_cols = max(2, STEP_W - 1)
  let g3 := (List.range (max 2 (STEP_W - 1))).foldl
    (fun im dx => if w - STEP_W + dx ≤ w - 2 then im.lineV (w - STEP_W + dx) y0 (h - 1) col_rgb else im) g2
  -- 1-px vertical grid line at the far right (line 276)
  g3.lineV (w - 1) 0 (h - 1) GRID_COLOR_V

/-- The contents of the freshly drawn rightmost `STEP_W` columns after a
`graph_tick`, as a function of the sample alone (`dx` is the column offset
from `w - STEP_W`, `y` the row): the last column is the vertical grid line;
the two bar columns show the bar from row `(h-1) - bar_h` down, horizontal
grid lines above it, black elsewhere. -/
def new_segment (temp : Option ℚ) (ambient tmax : ℚ) (h : ℕ) (dx y : ℕ) : Color :=
  if dx = STEP_W - 1 then GRID_COLOR_V
  else if (h - 1) - bar_height temp ambient tmax h ≤ y then
    bgr_to_rgb (temp_to_color_bgr temp ambient tmax)
  else if y % H_GRID_STEP = 0 then GRID_COLOR_H
  else (0, 0, 0)

/-- A sequence of graph advances, oldest sample first (each main-loop tick
calls `graph_tick` once, line 436). -/
def advance_run (g : Img) (vs : List (Option ℚ)) (ambient tmax : ℚ) : Img :=
  vs.foldl (fun im v => graph_tick im v ambient tmax) g

-- ================== graph buffer lemmas ==================

/-- `graph_tick` never resizes the buffer (width). -/
theorem graph_tick_w (g : Img) (v : Option ℚ) (a m : ℚ) : (graph_tick g v a m).w = g.w := by
  have hrange : List.range (max 2 (STEP_W - 1)) = [0, 1] := by decide
  simp only [graph_tick, hrange, List.foldl_cons, List.foldl_nil]
  split_ifs <;> rfl

/-- `graph_tick` never resizes the buffer (height). -/
theorem graph_tick_h (g : Img) (v : Option ℚ) (a m : ℚ) : (graph_tick g v a m).h = g.h := by
  have hrange : List.range (max 2 (STEP_W - 1)) = [0, 1] := by decide
  simp only [graph_tick, hrange, List.foldl_cons, List.foldl_nil]
  split_ifs <;> rfl

/-- Full pixel characterization of one graph advance: columns left of
`w - STEP_W` take the old contents shifted left by `STEP_W`, and the
rightmost `STEP_W` columns hold `new_segment` of the new sample alone. -/
theorem graph_tick_px (g : Img) (v : Option ℚ) (a m : ℚ) (hw : 3 ≤ g.w) (hh : 2 ≤ g.h)
    (x y : ℕ) (hx : x < g.w) (hy : y < g.h) :
    (graph_tick g v a m).px x y =
      if g.w - 3 ≤ x then new_segment v a m g.h (x - (g.w - 3)) y
      else g.px (x + 3) y := by
  have hrange : List.range (max 2 (STEP_W - 1)) = [0, 1] := by decide
  simp only [graph_tick, hrange, List.foldl_cons, List.foldl_nil, new_segment,
    Img.lineV, draw_h_grid_segment, Img.pasteN, Img.crop, Img.new, STEP_W, H_GRID_STEP]
  rw [if_pos (by omega : (0:ℕ) < 3), if_pos (by omega : g.w - 3 ≤ g.w - 2),
      if_pos (by omega : g.w - 3 + 0 ≤ g.w - 2), if_pos (by omega : g.w - 3 + 1 ≤ g.w - 2)]
  simp only [Nat.sub_zero, Nat.add_zero, Nat.zero_add]
  split_ifs <;> first | rfl | omega

theorem advance_run_cons (g : Img) (v : Option ℚ) (vs : List (Option ℚ)) (a m : ℚ) :
    advance_run g (v :: vs) a m = advance_run (graph_tick g v a m) vs a m := rfl

theorem advance_run_w (a m : ℚ) : ∀ (vs : List (Option ℚ)) (g : Img),
    (advance_run g vs a m).w = g.w := by
  intro vs
  induction vs with
  | nil => intro g; rfl
  | cons v rest ih => intro g; rw [advance_run_cons, ih, graph_tick_w]

theorem advance_run_h (a m : ℚ) : ∀ (vs : List (Option ℚ)) (g : Img),
    (advance_run g vs a m).h = g.h := by
  intro vs
  induction vs with
  | nil => intro g; rfl
  | cons v rest ih => intro g; rw [advance_run_cons, ih, graph_tick_h]

/-- After `k` advances, any pixel still inside the buffer has moved left by
exactly `k·STEP_W` columns. -/
theorem advance_run_shift (a m : ℚ) : ∀ (vs : List (Option ℚ)) (g : Img) (x y : ℕ),
    3 ≤ g.w → 2 ≤ g.h → x + 3 * vs.length < g.w → y < g.h →
    (advance_run g vs a m).px x y = g.px (x + 3 * vs.length) y := by
  intro vs
  induction vs with
  | nil => intro g x y _ _ _ _; simp [advance_run]
  | cons v rest ih =>
    intro g x y hw hh hx hy
    have hgw := graph_tick_w g v a m
    have hgh := graph_tick_h g v a m
    have hlen : x + 3 * (v :: rest).length = x + 3 * rest.length + 3 := by
      simp [List.length_cons]; omega
    rw [advance_run_cons,
        ih (graph_tick g v a m) x y (by omega) (by omega)
          (by rw [hgw]; simp only [List.length_cons] at hx; omega) (by omega),
        graph_tick_px g v a m hw hh (x + 3 * rest.length) y
          (by simp only [List.length_cons] at hx; omega) hy,
        if_neg (by simp only [List.length_cons] at hx; omega), hlen]

/-- The sliding-window invariant: after the advances `vs` (oldest first), the
`j`-th sample's fresh segment sits `(len − j)·STEP_W` columns from the right
edge, provided it has not yet been pushed off the left edge. -/
theorem advance_run_segments (a m : ℚ) : ∀ (vs : List (Option ℚ)) (g : Img),
    3 ≤ g.w → 2 ≤ g.h → ∀ j, j < vs.length → ∀ dx, dx < 3 → ∀ y, y < g.h →
    (vs.length - j) * 3 ≤ g.w →
    (advance_run g vs a m).px (g.w - (vs.length - j) * 3 + dx) y
      = new_segment (vs.getD j none) a m g.h dx y := by
  intro vs
  induction vs with
  | nil => intro g _ _ j hj; exact absurd hj (by simp)
  | cons v rest ih =>
    intro g hw hh j hj dx hdx y hy hcap
    have hgw := graph_tick_w g v a m
    have hgh := graph_tick_h g v a m
    simp only [List.length_cons] at hj hcap ⊢
    match j with
    | 0 =>
      rw [advance_run_cons]
      have hx : g.w - (rest.length + 1 - 0) * 3 + dx + 3 * rest.length = g.w - 3 + dx := by omega
      rw [advance_run_shift a m rest (graph_tick g v a m) _ y (by omega) (by omega)
            (by rw [hgw]; omega) (by omega)]
      rw [hx, graph_tick_px g v a m hw hh (g.w - 3 + dx) y (by omega) hy,
          if_pos (by omega : g.w - 3 ≤ g.w - 3 + dx)]
      have : g.w - 3 + dx - (g.w - 3) = dx := by omega
      rw [this]
      rfl
    | Nat.succ k =>
      rw [advance_run_cons]
      have harg : g.w - (rest.length + 1 - (k + 1)) * 3 + dx
          = (graph_tick g v a m).w - (rest.length - k) * 3 + dx := by rw [hgw]; omega
      rw [harg, ih (graph_tick g v a m) (by omega) (by omega) k (by omega) dx hdx y
            (by omega) (by omega), hgh]
      simp

-- numeric evaluation helpers
theorem bar_height_eval_20 : bar_height (some 20) 20 50 32 = 0 := by
  norm_num [bar_height, bar_frac, pyInt]

theorem bar_height_eval_35 : bar_height (some 35) 20 50 32 = 15 := by
  norm_num [bar_height, bar_frac, pyInt]
  decide

theorem bar_height_eval_50 : bar_height (some 50) 20 50 32 = 31 := by
  norm_num [bar_height, bar_frac, pyInt]
  decide

theorem color_eval_20 : bgr_to_rgb (temp_to_color_bgr (some 20) 20 50) = (255, 0, 0) := by
  norm_num [temp_to_color_bgr, gradient_color, lerp3, lerp, pyInt, bgr_to_rgb,
    BAR_RED, BAR_YELLOW]
  decide

theorem color_eval_35 : bgr_to_rgb (temp_to_color_bgr (some 35) 20 50) = (128, 255, 0) := by
  norm_num [temp_to_color_bgr, gradient_color, lerp3, lerp, pyInt, bgr_to_rgb,
    BAR_YELLOW, BAR_GREEN]
  decide

theorem color_eval_50 : bgr_to_rgb (temp_to_color_bgr (some 50) 20 50) = (0, 0, 255) := by
  norm_num [temp_to_color_bgr, gradient_color, lerp3, lerp, pyInt, bgr_to_rgb,
    BAR_GREEN, BAR_BLUE]
  decide

theorem temp_to_color_degenerate (v ambient tmax : ℚ) (hd : tmax ≤ ambient) :
    temp_to_color_bgr (some v) ambient tmax = BAR_BLUE := by
  rw [temp_to_color_bgr, if_pos hd]
  norm_num [gradient_color, lerp3, lerp, pyInt, BAR_GREEN, BAR_BLUE]
  decide

theorem temp_to_color_at_ambient (ambient tmax : ℚ) (hlt : ambient < tmax) :
    temp_to_color_bgr (some ambient) ambient tmax = BAR_RED := by
  rw [temp_to_color_bgr, if_neg (not_le.mpr hlt)]
  norm_num [gradient_color, lerp3, lerp, pyInt, BAR_RED, BAR_YELLOW]
  decide

theorem bar_frac_none (ambient tmax : ℚ) : bar_frac none ambient tmax = 0 := rfl

theorem bar_frac_degenerate (v ambient tmax : ℚ) (hd : tmax ≤ ambient) :
    bar_frac (some v) ambient tmax = 0 := by
  rw [bar_frac, if_neg (not_lt.mpr hd)]

theorem bar_height_of_frac_zero (t : Option ℚ) (a m : ℚ) (h : ℕ)
    (hf : bar_frac t a m = 0) : bar_height t a m h = 0 := by
  rw [bar_height, hf]
  norm_num [pyInt]

/-- **C1** (code bug): the gradient is reversed in the code.  Evaluating the
code's own `temp_to_color_bgr` at the scale endpoints with the default range
`[20, 50]`: the value `ambient = 20` receives the *red* stop and `max = 50`
the *blue* stop, contradicting both the claim and the function's docstring
("blue -> green -> yellow -> red", "ambient -> blue, max -> red"). -/
theorem C1_gradient_endpoints_reversed :
    temp_to_color_bgr (some 20) 20 50 = BAR_RED ∧
    temp_to_color_bgr (some 50) 20 50 = BAR_BLUE ∧
    BAR_RED ≠ BAR_BLUE := by
  refine ⟨temp_to_color_at_ambient 20 50 (by norm_num), ?_, by decide⟩
  norm_num [temp_to_color_bgr, gradient_color, lerp3, lerp, pyInt, BAR_GREEN, BAR_BLUE]
  decide

/-- **C2** (counterexample): the code computes the bar height with `int(...)`
(floor), not `round(...)`.  At `v = 35`, `t = 1/2`, `H = 32`: the claim's
`round(t·(H−1)) = round(15.5) = 16` would paint the pixel in column 119 at
row `31 − 16 = 15`, but after a `graph_tick` that pixel holds the horizontal
grid color, not the bar color — the drawn height is `int(15.5) = 15`. -/
theorem C2_round_formula_counterexample :
    bar_height (some 35) 20 50 32 = 15 ∧
    pyRound ((35 - 20) / (50 - 20) * ((32 : ℚ) - 1)) = 16 ∧
    (graph_tick graph_img_init (some 35) 20 50).px 119 15 = (30, 30, 30) ∧
    ((30, 30, 30) : Color) ≠ bgr_to_rgb (temp_to_color_bgr (some 35) 20 50) := by
  refine ⟨bar_height_eval_35, by norm_num [pyRound], ?_, by rw [color_eval_35]; decide⟩
  have h := graph_tick_px graph_img_init (some 35) 20 50 (by decide) (by decide)
    119 15 (by decide) (by decide)
  have hw : graph_img_init.w = 122 := rfl
  have hh : graph_img_init.h = 32 := rfl
  rw [hw, hh] at h
  rw [h, if_pos (by decide)]
  simp [new_segment, bar_height_eval_35, GRID_COLOR_H, H_GRID_STEP]

/-- **C2** (amended): in the concrete scenario (122×32 buffer, `stepWidth 3`,
`ambient 20`, `max 50`, samples 20.0 / 35.0 / 50.0) the drawn bar heights are
`int(t·(H−1))` — the floor, i.e. `0`, `15 = int(15.5)` and `31` — not
`round(t·(H−1))`; the three fresh segments sit oldest-left in columns
113/116/119 and their colors run from the gradient's first stop (red, per the
reversed gradient of C1) to its last stop (blue).  The two endpoint colors
are stated as literals because there double and exact-rational arithmetic
agree; the middle bar's color is stated as the program's own gradient term,
not a channel literal, since its exact-rational value sits on a rounding
boundary where the program's doubles land one count lower (127 vs 128 in the
red channel). -/
theorem C2_concrete_scenario_floor_heights :
    (advance_run graph_img_init [some 20, some 35, some 50] 20 50).w = 122 ∧
    (advance_run graph_img_init [some 20, some 35, some 50] 20 50).h = 32 ∧
    bar_height (some 20) 20 50 32 = 0 ∧
    bar_height (some 35) 20 50 32 = 15 ∧
    bar_height (some 50) 20 50 32 = 31 ∧
    (∀ y, y < 32 → (advance_run graph_img_init [some 20, some 35, some 50] 20 50).px 119 y
        = (0, 0, 255)) ∧
    (∀ y, y < 32 → (advance_run graph_img_init [some 20, some 35, some 50] 20 50).px 116 y
        = if 16 ≤ y then bgr_to_rgb (temp_to_color_bgr (some 35) 20 50)
          else if y % 3 = 0 then (30, 30, 30) else (0, 0, 0)) ∧
    (∀ y, y < 32 → (advance_run graph_img_init [some 20, some 35, some 50] 20 50).px 113 y
        = if y = 31 then (255, 0, 0) else if y % 3 = 0 then (30, 30, 30) else (0, 0, 0)) := by
  have hw : graph_img_init.w = 122 := rfl
  have hh : graph_img_init.h = 32 := rfl
  refine ⟨by rw [advance_run_w, hw], by rw [advance_run_h, hh],
    bar_height_eval_20, bar_height_eval_35, bar_height_eval_50, ?_, ?_, ?_⟩
  · intro y hy
    have h := advance_run_segments 20 50 [some 20, some 35, some 50] graph_img_init
      (by decide) (by decide) 2 (by decide) 0 (by decide) y hy (by decide)
    rw [hw, hh] at h
    norm_num at h
    rw [h]
    simp [new_segment, bar_height_eval_50, color_eval_50, H_GRID_STEP]
  · intro y hy
    have h := advance_run_segments 20 50 [some 20, some 35, some 50] graph_img_init
      (by decide) (by decide) 1 (by decide) 0 (by decide) y hy (by decide)
    rw [hw, hh] at h
    norm_num at h
    rw [h]
    simp [new_segment, bar_height_eval_35, STEP_W, H_GRID_STEP, GRID_COLOR_H, GRID_COLOR_V]
  · intro y hy
    have h := advance_run_segments 20 50 [some 20, some 35, some 50] graph_img_init
      (by decide) (by decide) 0 (by decide) 0 (by decide) y hy (by decide)
    rw [hw, hh] at h
    norm_num at h
    rw [h]
    simp [new_segment, bar_height_eval_20, STEP_W, H_GRID_STEP, GRID_COLOR_H, GRID_COLOR_V,
      color_eval_20]
    split_ifs <;> first | rfl | omega

/-- **C3** (counterexample): with a degenerate scale (`ambient = 50 ≥ max = 20`)
`graph_tick` draws a *zero-height* bar, not a full-height one: in the fresh
bar column 119 the row 14 pixel stays black (neither the hottest-stop color
`(0,0,255)` nor the claim's red), and only the baseline row 31 gets the
`t = 1` color. -/
theorem C3_degenerate_counterexample :
    (graph_tick graph_img_init (some 30) 50 20).px 119 14 = (0, 0, 0) ∧
    (graph_tick graph_img_init (some 30) 50 20).px 119 31 = (0, 0, 255) ∧
    ((0, 0, 0) : Color) ≠ (0, 0, 255) ∧ ((0, 0, 0) : Color) ≠ bgr_to_rgb BAR_RED := by
  have hfr : bar_height (some 30) 50 20 32 = 0 :=
    bar_height_of_frac_zero _ _ _ _ (bar_frac_degenerate 30 50 20 (by norm_num))
  have hc : bgr_to_rgb (temp_to_color_bgr (some 30) 50 20) = (0, 0, 255) := by
    rw [temp_to_color_degenerate 30 50 20 (by norm_num)]; decide
  have hw : graph_img_init.w = 122 := rfl
  have hh : graph_img_init.h = 32 := rfl
  refine ⟨?_, ?_, by decide, by decide⟩
  · have h := graph_tick_px graph_img_init (some 30) 50 20 (by decide) (by decide)
      119 14 (by decide) (by decide)
    rw [hw, hh] at h
    rw [h, if_pos (by decide)]
    simp [new_segment, hfr, STEP_W, H_GRID_STEP]
  · have h := graph_tick_px graph_img_init (some 30) 50 20 (by decide) (by decide)
      119 31 (by decide) (by decide)
    rw [hw, hh] at h
    rw [h, if_pos (by decide)]
    simp [new_segment, hfr, STEP_W, H_GRID_STEP, hc]

/-- **C3** (amended): whenever `max ≤ ambient` the *color* function indeed
treats `t = 1` — any drawn bar pixel gets the last gradient stop's color (the
code's `BAR_BLUE`, i.e. RGB `(0,0,255)`) — but `graph_tick`'s height branch
sets `frac = 0.0`, so the bar is drawn at zero height: only the baseline row
of the bar columns is painted; every row above it shows grid lines or black. -/
theorem C3_degenerate_amended (g : Img) (v ambient tmax : ℚ)
    (hd : tmax ≤ ambient) (hw : 3 ≤ g.w) (hh : 2 ≤ g.h) :
    bar_frac (some v) ambient tmax = 0 ∧
    bar_height (some v) ambient tmax g.h = 0 ∧
    temp_to_color_bgr (some v) ambient tmax = BAR_BLUE ∧
    (graph_tick g (some v) ambient tmax).px (g.w - 3) (g.h - 1) = bgr_to_rgb BAR_BLUE ∧
    (∀ y, y < g.h - 1 → (graph_tick g (some v) ambient tmax).px (g.w - 3) y
        = if y % 3 = 0 then GRID_COLOR_H else (0, 0, 0)) := by
  have hfr := bar_frac_degenerate v ambient tmax hd
  have hbh := bar_height_of_frac_zero (some v) ambient tmax g.h hfr
  have hc := temp_to_color_degenerate v ambient tmax hd
  refine ⟨hfr, hbh, hc, ?_, ?_⟩
  · rw [graph_tick_px g (some v) ambient tmax hw hh (g.w - 3) (g.h - 1) (by omega) (by omega),
      if_pos (by omega), Nat.sub_self]
    rw [new_segment, if_neg (by decide), hbh, if_pos (by omega), hc]
  · intro y hy
    rw [graph_tick_px g (some v) ambient tmax hw hh (g.w - 3) y (by omega) (by omega),
      if_pos (by omega), Nat.sub_self]
    rw [new_segment, if_neg (by decide), hbh, if_neg (by omega)]

/-- Witness for `C3_degenerate_amended` at `g = graph_img_init`, `v = 30`,
`ambient = 50`, `tmax = 20`, `y = 14`. -/
theorem C3_degenerate_amended_witness :
    bar_frac (some 30) 50 20 = 0 ∧
    bar_height (some 30) 50 20 32 = 0 ∧
    temp_to_color_bgr (some 30) 50 20 = BAR_BLUE ∧
    (graph_tick graph_img_init (some 30) 50 20).px 119 31 = bgr_to_rgb BAR_BLUE ∧
    (∀ y, y < 31 → (graph_tick graph_img_init (some 30) 50 20).px 119 y
        = if y % 3 = 0 then GRID_COLOR_H else (0, 0, 0)) :=
  C3_degenerate_amended graph_img_init 30 50 20 (by decide) (by decide) (by decide)

/-- **C4**: a missing (`None`) sample draws a zero-height bar whose baseline
pixel carries the neutral gray `(120,120,120)` — a color distinct from the
one a present sample at `t = 0` (i.e. `value = ambient`) would receive — and
every row above the baseline in the bar columns shows only grid lines or
black.  `graph_tick` is a total function: no exception is possible. -/
theorem C4_missing_sample_neutral (g : Img) (ambient tmax : ℚ)
    (hlt : ambient < tmax) (hw : 3 ≤ g.w) (hh : 2 ≤ g.h) :
    bar_height none ambient tmax g.h = 0 ∧
    (graph_tick g none ambient tmax).px (g.w - 3) (g.h - 1) = (120, 120, 120) ∧
    (∀ y, y < g.h - 1 → (graph_tick g none ambient tmax).px (g.w - 3) y
        = if y % 3 = 0 then GRID_COLOR_H else (0, 0, 0)) ∧
    ((120, 120, 120) : Color) ≠ bgr_to_rgb (temp_to_color_bgr (some ambient) ambient tmax) := by
  have hbh := bar_height_of_frac_zero none ambient tmax g.h (bar_frac_none ambient tmax)
  refine ⟨hbh, ?_, ?_, ?_⟩
  · rw [graph_tick_px g none ambient tmax hw hh (g.w - 3) (g.h - 1) (by omega) (by omega),
      if_pos (by omega), Nat.sub_self]
    rw [new_segment, if_neg (by decide), hbh, if_pos (by omega)]
    rfl
  · intro y hy
    rw [graph_tick_px g none ambient tmax hw hh (g.w - 3) y (by omega) (by omega),
      if_pos (by omega), Nat.sub_self]
    rw [new_segment, if_neg (by decide), hbh, if_neg (by omega)]
  · rw [temp_to_color_at_ambient ambient tmax hlt]
    decide

/-- Witness for `C4_missing_sample_neutral` at `g = graph_img_init`,
`ambient = 20`, `tmax = 50`. -/
theorem C4_missing_sample_neutral_witness :
    bar_height none 20 50 32 = 0 ∧
    (graph_tick graph_img_init none 20 50).px 119 31 = (120, 120, 120) ∧
    (∀ y, y < 31 → (graph_tick graph_img_init none 20 50).px 119 y
        = if y % 3 = 0 then GRID_COLOR_H else (0, 0, 0)) ∧
    ((120, 120, 120) : Color) ≠ bgr_to_rgb (temp_to_color_bgr (some 20) 20 50) :=
  C4_missing_sample_neutral graph_img_init 20 50 (by decide) (by decide) (by decide)

/-- **C5**: each advance shifts every surviving pixel left by exactly
`STEP_W = 3` columns (the leftmost 3 columns are discarded), never resizes
the buffer, and redraws the freed rightmost columns from the new sample
alone; hence after the advances `vs` the fresh segment of the `j`-th sample
(oldest first) sits `(len−j)·3` columns from the right edge — the rightmost
`k·3` columns, clipped to the buffer, show the `k` most recent samples in
order, oldest-left. -/
theorem C5_sliding_window (g : Img) (a m : ℚ) (hw : 3 ≤ g.w) (hh : 2 ≤ g.h) :
    (∀ (v : Option ℚ) (x y : ℕ), x + 3 < g.w → y < g.h →
        (graph_tick g v a m).px x y = g.px (x + 3) y) ∧
    (∀ vs : List (Option ℚ), (advance_run g vs a m).w = g.w ∧ (advance_run g vs a m).h = g.h) ∧
    (∀ (vs : List (Option ℚ)) (j dx y : ℕ), j < vs.length → dx < 3 → y < g.h →
        (vs.length - j) * 3 ≤ g.w →
        (advance_run g vs a m).px (g.w - (vs.length - j) * 3 + dx) y
          = new_segment (vs.getD j none) a m g.h dx y) := by
  refine ⟨?_, fun vs => ⟨advance_run_w a m vs g, advance_run_h a m vs g⟩,
    fun vs j dx y hj hdx hy hcap => advance_run_segments a m vs g hw hh j hj dx hdx y hy hcap⟩
  intro v x y hx hy
  rw [graph_tick_px g v a m hw hh x y (by omega) hy, if_neg (by omega)]

/-- Witness for `C5_sliding_window` at `g = graph_img_init`, samples
`[some 35]`, `j = 0`, `dx = 0`, `y = 31`. -/
theorem C5_sliding_window_witness :
    (advance_run graph_img_init [some 35] 20 50).px 119 31
      = new_segment (some 35) 20 50 32 0 31 :=
  (C5_sliding_window graph_img_init 20 50 (by decide) (by decide)).2.2
    [some 35] 0 0 31 (by decide) (by decide) (by decide) (by decide)

/-- Witness for `C2_concrete_scenario_floor_heights` at row `y = 15`: the top
drawn row of the middle (35°) bar is 16 — i.e. height `int(15.5) = 15` above
the baseline — so row 15 of column 116 is still a grid row. -/
theorem C2_concrete_scenario_floor_heights_witness :
    (advance_run graph_img_init [some 20, some 35, some 50] 20 50).px 116 15
      = if (16 : ℕ) ≤ 15 then bgr_to_rgb (temp_to_color_bgr (some 35) 20 50)
        else if 15 % 3 = 0 then (30, 30, 30) else (0, 0, 0) :=
  C2_concrete_scenario_floor_heights.2.2.2.2.2.2.1 15 (by decide)

-- ================== font collaborator ==================

/-- The font is I/O glue (`ImageFont.load_default()`, line 105): an external
collaborator.  It is embedded as an explicit record of the three operations
the source uses: `getbbox` (a 4-tuple of pixel bounds), `textlength`
(`draw.textlength`, the branch taken in `_text_width`, lines 304-310), and
glyph rendering (`draw.text(pos, text, fill, font)`), which writes only to
its target image and returns the result. -/
structure FontM where
  getbbox : String → ℤ × ℤ × ℤ × ℤ
  textlength : String → ℤ
  render : Img → ℤ → ℤ → String → Color → Img

/-- `bbox[2] - bbox[0]` of `font.getbbox(s)`. -/
def bbox_w (fm : FontM) (s : String) : ℤ := (fm.getbbox s).2.2.1 - (fm.getbbox s).1

/-- `bbox[3] - bbox[1]` of `font.getbbox(s)`. -/
def bbox_h (fm : FontM) (s : String) : ℤ := (fm.getbbox s).2.2.2 - (fm.getbbox s).2.1

/-- A concrete font instance (all metrics zero, rendering a no-op), used only
to instantiate universally quantified statements at concrete inputs. -/
def fontM0 : FontM := ⟨fun _ => (0, 0, 0, 0), fun _ => 0, fun im _ _ _ _ => im⟩

-- ================== drawing primitives with signed coordinates ==================

/-- `draw.rectangle((x0, y0, x1, y1), fill=c)`: endpoints inclusive, clipped. -/
def Img.fillRect (g : Img) (x0 y0 x1 y1 : ℤ) (c : Color) : Img :=
  { g with px := fun x y =>
      if x0 ≤ (x : ℤ) ∧ (x : ℤ) ≤ x1 ∧ y0 ≤ (y : ℤ) ∧ (y : ℤ) ≤ y1 ∧ x < g.w ∧ y < g.h then c
      else g.px x y }

/-- `img.paste(src, (x0, y0))` with signed offsets, clipped. -/
def Img.pasteZ (g src : Img) (x0 y0 : ℤ) : Img :=
  { g with px := fun x y =>
      if x0 ≤ (x : ℤ) ∧ (x : ℤ) < x0 + src.w ∧ y0 ≤ (y : ℤ) ∧ (y : ℤ) < y0 + src.h
          ∧ x < g.w ∧ y < g.h then
        src.px ((x : ℤ) - x0).toNat ((y : ℤ) - y0).toNat
      else g.px x y }

/-- Pillow's `MULDIV255` rounding for a product of two channels. -/
def muldiv255 (a b : ℕ) : ℕ := ((a * b + 128) >>> 8 + (a * b + 128)) >>> 8

/-- `ImageChops.multiply` on one pixel. -/
def cmul (c d : Color) : Color :=
  (muldiv255 c.1 d.1, muldiv255 c.2.1 d.2.1, muldiv255 c.2.2 d.2.2)

/-- `multiply_paste(base_img, overlay, xy)` (lines 58-66): crop the region
under the overlay, multiply channel-wise, paste the product back — dark
overlay pixels darken the base, white ones pass it through.  Every call site
passes `opacity=1.0`, so the `Image.blend` branch is never taken and is not
modelled. -/
def multiply_paste (base_img overlay : Img) (x0 y0 : ℕ) : Img :=
  { base_img with px := fun x y =>
      if x0 ≤ x ∧ x < x0 + overlay.w ∧ y0 ≤ y ∧ y < y0 + overlay.h
          ∧ x < base_img.w ∧ y < base_img.h then
        (cmul (base_img.px x y) (overlay.px (x - x0) (y - y0)))
      else base_img.px x y }

/-- One channel of the RGBA compositing performed by
`img.paste(label, pos, label)` with a uniform-alpha label:
`dst + alpha·(src − dst)/255` with Pillow's rounding.  No claim below
depends on the exact rounding. -/
def alpha_blend (alpha dst src : ℕ) : ℕ := (dst * (255 - alpha) + src * alpha + 127) / 255

/-- `img.paste(label, (tx, ty), label)` for a uniform-alpha RGBA label. -/
def alpha_paste (g src : Img) (x0 y0 : ℤ) (alpha : ℕ) : Img :=
  { g with px := fun x y =>
      if x0 ≤ (x : ℤ) ∧ (x : ℤ) < x0 + src.w ∧ y0 ≤ (y : ℤ) ∧ (y : ℤ) < y0 + src.h
          ∧ x < g.w ∧ y < g.h then
        (alpha_blend alpha (g.px x y).1 (src.px ((x : ℤ) - x0).toNat ((y : ℤ) - y0).toNat).1,
         alpha_blend alpha (g.px x y).2.1 (src.px ((x : ℤ) - x0).toNat ((y : ℤ) - y0).toNat).2.1,
         alpha_blend alpha (g.px x y).2.2 (src.px ((x : ℤ) - x0).toNat ((y : ℤ) - y0).toNat).2.2)
      else g.px x y }

-- ================== labels and temp grid overlay (lines 278-301) ==================

def LABEL_PAD_X : ℤ := 3
def LABEL_PAD_Y : ℤ := 1

/-- `draw_label(img, text, pos_xy, fg, bg, alpha)` (lines 278-289): build a
padded RGBA box holding the text and alpha-paste it onto `img`. -/
def draw_label (fm : FontM) (img : Img) (text : String) (tx ty : ℤ)
    (fg bgc : Color) (alpha : ℕ) : Img :=
  let tw := bbox_w fm text
  let th := bbox_h fm text
  let label := Img.new (tw + 2 * LABEL_PAD_X).toNat (th + 2 * LABEL_PAD_Y).toNat bgc
  let label := fm.render label LABEL_PAD_X LABEL_PAD_Y text fg
  alpha_paste img label tx ty alpha

/-- `draw_temp_grid(img, ambient, tmax, current_ambient)` (lines 291-301):
paste the scrolling graph buffer at `(AX0, AY0)` and draw the two left-edge
labels.  (`toString` stands in for the f-string number formatting; the label
text reaches only the abstract font.) -/
def draw_temp_grid (fm : FontM) (img graph : Img) (ambient tmax : ℚ)
    (current_ambient : Option ℚ) : Img :=
  let img := img.pasteZ graph (AX0 : ℤ) (AY0 : ℤ)
  let img := draw_label fm img (toString (pyInt tmax) ++ "°C") (AX0 : ℤ) ((AY0 : ℤ) + 1)
    LABEL_FG_TOP LABEL_BG LABEL_ALPHA
  let shown := current_ambient.getD ambient
  let amb_y := (AY1 : ℤ) - bbox_h fm "Ay" - 1
  draw_label fm img (toString shown ++ "°C") (AX0 : ℤ) amb_y LABEL_FG_BOTTOM LABEL_BG LABEL_ALPHA

-- ================== bottom bar / ticker (lines 303-353) ==================

def BOTTOM_BAR_RECT : ℤ × ℤ × ℤ × ℤ := (1, 87, 122, 94)

/-- The ticker offset update of `draw_bottom_bar` (lines 349-353):
`cycle = tw + TICKER_SPACER_PX`; if `cycle ≤ 0` return `0`, else
`(offset_px + TICKER_SPEED_PX) % cycle` (Python `%`, i.e. `Int.emod`). -/
def ticker_next (tw offset_px : ℤ) : ℤ :=
  if tw + TICKER_SPACER_PX ≤ 0 then 0
  else (offset_px + TICKER_SPEED_PX).emod (tw + TICKER_SPACER_PX)

/-- `draw_bottom_bar(img, label, ticker_text, offset_px)` (lines 312-353):
compose the bar off-screen, draw the scrolling text (second copy when the
first has scrolled far enough), the label box, paste the bar into the frame,
and return the wrapped offset. -/
def draw_bottom_bar (fm : FontM) (img : Img) (label ticker_text : String)
    (offset_px : ℤ) : Img × ℤ :=
  let x0 := BOTTOM_BAR_RECT.1
  let y0 := BOTTOM_BAR_RECT.2.1
  let x1 := BOTTOM_BAR_RECT.2.2.1
  let y1 := BOTTOM_BAR_RECT.2.2.2
  let bar_w := x1 - x0 + 1
  let bar_h := y1 - y0 + 3
  let bar := Img.new bar_w.toNat bar_h.toNat (0, 0, 0)
  -- bd.line((0, 0, bar_w, 0), fill="white")
  let bar := bar.fillRect 0 0 bar_w 0 (255, 255, 255)
  let label_y := max 0 ((bar_h - bbox_h fm "Ay").ediv 2 - 1)
  let label_w := fm.textlength label + 2
  let ticker_x0 := label_w
  -- ticker_w (line 328) is computed but never used afterwards
  let _ticker_w := max 0 (bar_w - ticker_x0 + 12)
  let tw := fm.textlength ticker_text
  let x := ticker_x0 - offset_px
  let y := label_y
  let bar := bar.fillRect (x + 20) (y + 1) x1 y1 (0, 0, 0)
  let bar := fm.render bar (x - 1) y ticker_text (255, 255, 255)
  let bar := if x + tw < bar_w then
      fm.render bar (x + tw + TICKER_SPACER_PX - 1) y ticker_text (255, 255, 255)
    else bar
  let bar := bar.fillRect 0 label_y (label_w + 3) 8 (255, 255, 255)
  let bar := fm.render bar 3 (label_y - 1) label (0, 0, 0)
  (img.pasteZ bar x0 y0, ticker_next tw offset_px)

-- ================== tiles and frame composition (lines 97-162, 376-402) ==================

/-- `STATE_COLORS` with the call-site default, i.e.
`STATE_COLORS.get(state, STATE_COLORS[0])` (lines 97-102 and 383): every
state outside 0..3 falls back to the no-signal gray. -/
def STATE_COLORS_get (s : ℤ) : Color :=
  if s = 0 then (50, 50, 50)
  else if s = 1 then (255, 255, 255)
  else if s = 2 then (255, 210, 31)
  else if s = 3 then (255, 59, 48)
  else (50, 50, 50)

/-- `state = states[idx] if idx < len(states) else 0` (line 382). -/
def eff_state (states : List ℤ) (idx : ℕ) : ℤ :=
  if idx < states.length then states.getD idx 0 else 0

/-- `frame = frames[0] if state == 0 else frames[frame_idx % len(frames)]`
(line 388).  The asset loader guarantees at least one frame per icon name
(line 113 raises at startup otherwise), so `List.getD`'s default is dead:
`frame_idx % length < length` whenever the list is nonempty. -/
def select_frame (frames : List Img) (state : ℤ) (frame_idx : ℕ) : Img :=
  if state = 0 then frames.getD 0 default
  else frames.getD (frame_idx % frames.length) default

/-- `"No" if state == 0 else ("OK" if state == 1 else ("Warn" if state == 2
else "Bad"))` (line 392). -/
def state_text (s : ℤ) : String :=
  if s = 0 then "No" else if s = 1 then "OK" else if s = 2 then "Warn" else "Bad"

def ICON_NAMES : List String := ["fan", "probe", "pump", "flow"]

/-- One entry of `metric_boxes` (lines 139-162). -/
structure Box where
  icon_x0 : ℕ
  icon_y0 : ℕ
  text_x : ℤ
  text_y : ℤ
  rect : ℤ × ℤ × ℤ × ℤ

instance : Inhabited Box := ⟨⟨0, 0, 0, 0, (0, 0, 0, 0)⟩⟩

abbrev spacing : ℕ := 1
abbrev rect_width : ℕ := (124 - spacing) / 2
abbrev rect_height : ℕ := ((line_y - 10) - spacing) / 2
abbrev icon_base : ℕ := rect_height - 4
abbrev line_gap : ℕ := 1

/-- The 2×2 tile layout (lines 143-162); only `text_y` depends on the font
(`text_h = font.getbbox("No")[3] - font.getbbox("No")[1]`, line 140). -/
def metric_boxes (fm : FontM) : List Box :=
  (List.range 4).map (fun i =>
    let row := i / 2
    let col := i % 2
    let left := col * (rect_width + spacing) + 2 * col
    let top := 12 + row * (rect_height + spacing) + 1 * row
    let right := left + rect_width - 2 * col
    let bottom := top + rect_height - 1
    { icon_x0 := left + 2
      icon_y0 := top + 2
      text_x := (left : ℤ) + 2 + (icon_base : ℤ) + 3
      text_y := (top : ℤ) + ((rect_height : ℤ) - (2 * bbox_h fm "No" + (line_gap : ℤ))).ediv 2 + 2
      rect := ((left : ℤ), (top : ℤ), (right : ℤ), (bottom : ℤ)) })

/-- The render-relevant mutable state the main loop owns: the static
background built once (lines 119-162), the scrolling graph buffer
(line 168), and the icon frame sets loaded once (lines 108-116). -/
structure RenderState where
  bg : Img
  graph_img : Img
  icon_frames : String → List Img

/-- One iteration of `make_frame`'s tile loop (lines 381-394): fill the tile
rectangle with the state color, multiply-paste the selected icon frame, and
draw the two status text lines. -/
def tile_step (fm : FontM) (S : RenderState) (states : List ℤ) (frame_idx : ℕ)
    (im : Img) (idx : ℕ) : Img :=
  let mb := (metric_boxes fm).getD idx default
  let state := eff_state states idx
  let color := STATE_COLORS_get state
  let im := im.fillRect mb.rect.1 mb.rect.2.1 mb.rect.2.2.1 mb.rect.2.2.2 color
  let frames := S.icon_frames (ICON_NAMES.getD idx "")
  let frame := select_frame frames state frame_idx
  let im := multiply_paste im frame mb.icon_x0 mb.icon_y0
  let im := fm.render im mb.text_x mb.text_y (state_text state) (0, 0, 0)
  fm.render im mb.text_x (mb.text_y + 7) "Signal" (0, 0, 0)

/-- `make_frame(frame_idx, ip_text, states, current_ambient, ticker_text,
ticker_offset)` (lines 376-402), with the owned state threaded explicitly:
`img = bg.copy()` (line 377) makes every drawing operation below target the
fresh copy, so the state `S` — background, graph buffer, icon frames — is
returned unchanged alongside the composed bitmap and the new ticker offset.
(`ip_text` is accepted and unused, exactly as in the source.) -/
def make_frame (fm : FontM) (S : RenderState) (frame_idx : ℕ) (ip_text : String)
    (states : List ℤ) (current_ambient : Option ℚ) (ticker_text : String)
    (ticker_offset : ℤ) : RenderState × Img × ℤ :=
  let img := S.bg
  let img := (List.range 4).foldl (tile_step fm S states frame_idx) img
  let img := draw_temp_grid fm img S.graph_img AMBIENT_DEFAULT TEMP_MAX_DEFAULT current_ambient
  let p := draw_bottom_bar fm img BOTTOM_LABEL ticker_text ticker_offset
  (S, p.1, p.2)

/-- The main loop's graph advance (line 436): the one place the render state
is written — `graph_tick` mutates the global `graph_img` in place. -/
def graph_advance_state (S : RenderState) (v : Option ℚ) (ambient tmax : ℚ) : RenderState :=
  { S with graph_img := graph_tick S.graph_img v ambient tmax }

-- ================== scheduler (lines 404-460) ==================

def IP_REFRESH_S : ℚ := 1
def TICK_S : ℚ := 2
def TARGET_FPS : ℚ := 5
def target_dt : ℚ := 1 / TARGET_FPS

/-- Slow-poll pacing (lines 425-427): when due (`now >= ip_next`) the task
fires and the next deadline is set to `now + IP_REFRESH_S` — wall clock, on
every fire. -/
def ip_step (now ip_next : ℚ) : ℚ × Bool :=
  if ip_next ≤ now then (now + IP_REFRESH_S, true) else (ip_next, false)

/-- Graph pacing (lines 430-437): when due the task fires and the deadline
advances by exactly one interval (`next_tick += TICK_S`); it is never
resynchronized to the current time. -/
def tick_step (now next_tick : ℚ) : ℚ × Bool :=
  if next_tick ≤ now then (next_tick + TICK_S, true) else (next_tick, false)

/-- Display pacing (lines 455-460): `next_t += target_dt`; if the advanced
deadline is not strictly in the future (`sleep <= 0`) the clock
resynchronizes to the current time.  (The source re-reads `perf_counter()`
for the resynchronization; the same instant `now` models both reads.) -/
def frame_step (now next_t : ℚ) : ℚ :=
  if 0 < next_t + target_dt - now then next_t + target_dt else now

/-- Fires of the graph task over `n` consecutive loop passes all at the same
instant `now` (the situation right after a stall). -/
def tick_fires (now : ℚ) : ℚ → ℕ → ℕ
  | _, 0 => 0
  | d, n + 1 => (if (tick_step now d).2 then 1 else 0) + tick_fires now (tick_step now d).1 n

/-- When a tile's effective state is 0 (NoSignal), its rendering does not
depend on the shared frame counter. -/
theorem tile_step_idle (fm : FontM) (S : RenderState) (states : List ℤ) (c c' : ℕ)
    (im : Img) (idx : ℕ) (h : eff_state states idx = 0) :
    tile_step fm S states c im idx = tile_step fm S states c' im idx := by
  simp [tile_step, h, select_frame]

/-- **C6**: the icon selector used by `make_frame` returns frame 0 for state
`NoSignal = 0` independently of the shared counter, returns
`frames[c mod frameCount]` for every other state, and consequently a frame
composed with all four tiles idle is identical for any two counter values. -/
theorem C6_idle_icon_frame_selection :
    (∀ (frames : List Img) (c : ℕ), select_frame frames 0 c = frames.getD 0 default) ∧
    (∀ (frames : List Img) (s : ℤ) (c : ℕ), s ≠ 0 →
        select_frame frames s c = frames.getD (c % frames.length) default) ∧
    (∀ (fm : FontM) (S : RenderState) (c c' : ℕ) (ip : String) (states : List ℤ)
        (ca : Option ℚ) (tt : String) (toff : ℤ),
        (∀ i, i < 4 → eff_state states i = 0) →
        make_frame fm S c ip states ca tt toff = make_frame fm S c' ip states ca tt toff) := by
  refine ⟨fun frames c => by simp [select_frame],
    fun frames s c hs => by simp [select_frame, hs], ?_⟩
  intro fm S c c' ip states ca tt toff h
  have hr : List.range 4 = [0, 1, 2, 3] := by decide
  simp only [make_frame, hr, List.foldl_cons, List.foldl_nil]
  rw [tile_step_idle fm S states c c' _ 0 (h 0 (by omega)),
      tile_step_idle fm S states c c' _ 1 (h 1 (by omega)),
      tile_step_idle fm S states c c' _ 2 (h 2 (by omega)),
      tile_step_idle fm S states c c' _ 3 (h 3 (by omega))]

/-- Witness for `C6_idle_icon_frame_selection`: an animated tile (state 1)
with two frames picks frame `5 mod 2 = 1`, and an all-idle frame is counter
independent at counters 0 and 7. -/
theorem C6_idle_icon_frame_selection_witness :
    select_frame [graph_img_init, Img.new 1 1 (9, 9, 9)] 1 5
      = [graph_img_init, Img.new 1 1 (9, 9, 9)].getD (5 % 2) default ∧
    make_frame fontM0 ⟨graph_img_init, graph_img_init, fun _ => [graph_img_init]⟩ 0 ""
        [0, 0, 0, 0] none "" 0
      = make_frame fontM0 ⟨graph_img_init, graph_img_init, fun _ => [graph_img_init]⟩ 7 ""
        [0, 0, 0, 0] none "" 0 :=
  ⟨C6_idle_icon_frame_selection.2.1 [graph_img_init, Img.new 1 1 (9, 9, 9)] 1 5 (by decide),
   C6_idle_icon_frame_selection.2.2 fontM0 ⟨graph_img_init, graph_img_init, fun _ => [graph_img_init]⟩
     0 7 "" [0, 0, 0, 0] none "" 0 (fun i hi => by
       interval_cases i <;> simp [eff_state])⟩

/-- **C7**: `draw_bottom_bar` returns the offset
`(offset_px + TICKER_SPEED_PX) mod (textWidth + TICKER_SPACER_PX)`, pinned to
`0` whenever the cycle length is `≤ 0` (so no division by zero occurs), and
in the non-degenerate case the result always lies in `[0, cycle)`. -/
theorem C7_ticker_offset_wrap (fm : FontM) (img : Img) (label text : String) (offset_px : ℤ) :
    (draw_bottom_bar fm img label text offset_px).2 = ticker_next (fm.textlength text) offset_px ∧
    (∀ tw off : ℤ, tw + TICKER_SPACER_PX ≤ 0 → ticker_next tw off = 0) ∧
    (∀ tw off : ℤ, 0 < tw + TICKER_SPACER_PX →
        ticker_next tw off = (off + TICKER_SPEED_PX).emod (tw + TICKER_SPACER_PX) ∧
        0 ≤ ticker_next tw off ∧ ticker_next tw off < tw + TICKER_SPACER_PX) := by
  refine ⟨rfl, fun tw off h => by simp [ticker_next, h], fun tw off h => ?_⟩
  rw [ticker_next, if_neg (by omega)]
  exact ⟨rfl, Int.emod_nonneg _ (by omega), Int.emod_lt_of_pos _ h⟩

/-- Witness for `C7_ticker_offset_wrap` with the zero-metric font, empty
strings and offset 5: the cycle is `0 + 24` and the update is `6 mod 24`. -/
theorem C7_ticker_offset_wrap_witness :
    (draw_bottom_bar fontM0 graph_img_init "" "" 5).2 = ticker_next (fontM0.textlength "") 5 ∧
    ticker_next 0 5 = (5 + TICKER_SPEED_PX).emod (0 + TICKER_SPACER_PX) ∧
    0 ≤ ticker_next 0 5 ∧ ticker_next 0 5 < 0 + TICKER_SPACER_PX :=
  ⟨(C7_ticker_offset_wrap fontM0 graph_img_init "" "" 5).1,
   (C7_ticker_offset_wrap fontM0 graph_img_init "" "" 5).2.2 0 5 (by decide)⟩

/-- **C9**: frame composition never mutates its inputs: with the owned state
(static background, graph buffer, icon frames) threaded explicitly through
the embedding, `make_frame` hands back the state it received — only the
fresh copy of the background is drawn on — and, being a function of exactly
`(font, state, arguments)`, its output bitmap is determined by them. -/
theorem C9_make_frame_pure (fm : FontM) (S : RenderState) (frame_idx : ℕ) (ip_text : String)
    (states : List ℤ) (current_ambient : Option ℚ) (ticker_text : String) (ticker_offset : ℤ) :
    (make_frame fm S frame_idx ip_text states current_ambient ticker_text ticker_offset).1 = S :=
  rfl

/-- **C10**: every integer state outside 0..3 falls back to the no-signal
fill color `(50,50,50)` (the `dict.get` default), and a missing entry in a
short state list is treated as state 0 — totally, with no exception path. -/
theorem C10_out_of_domain_states :
    (∀ s : ℤ, s ≠ 0 → s ≠ 1 → s ≠ 2 → s ≠ 3 → STATE_COLORS_get s = (50, 50, 50)) ∧
    (∀ (states : List ℤ) (i : ℕ), states.length ≤ i → eff_state states i = 0) := by
  constructor
  · intro s h0 h1 h2 h3
    simp [STATE_COLORS_get, h0, h1, h2, h3]
  · intro states i h
    simp [eff_state, Nat.not_lt.mpr h]

/-- Witness for `C10_out_of_domain_states`: state 7 gets gray, and index 2 of
a singleton list is treated as state 0. -/
theorem C10_out_of_domain_states_witness :
    STATE_COLORS_get 7 = (50, 50, 50) ∧ eff_state [3] 2 = 0 :=
  ⟨C10_out_of_domain_states.1 7 (by decide) (by decide) (by decide) (by decide),
   C10_out_of_domain_states.2 [3] 2 (by decide)⟩

/-- **C8** (counterexample): the claim fails for two of the three tasks.
The slow poll with deadline `0` polled at `now = 1/2` — a miss of only half
an interval — fires and resynchronizes to `now + interval = 3/2`, an advance
that is *not* a whole multiple of the 1-second interval.  And the graph task
never resynchronizes: after a stall (deadline 0, `now = 10`), four
consecutive loop passes at the same instant fire four times — a catch-up
burst, not a single fire. -/
theorem C8_schedule_counterexample :
    ip_step (1/2) 0 = (3/2, true) ∧
    (1/2 : ℚ) - 0 < IP_REFRESH_S ∧
    (3/2 : ℚ) = 1/2 + IP_REFRESH_S ∧
    (¬ ∃ k : ℤ, (3/2 : ℚ) - 0 = k * IP_REFRESH_S) ∧
    tick_fires 10 0 4 = 4 := by
  have h0 : tick_step 10 0 = (2, true) := by norm_num [tick_step, TICK_S]
  have h2 : tick_step 10 2 = (4, true) := by norm_num [tick_step, TICK_S]
  have h4 : tick_step 10 4 = (6, true) := by norm_num [tick_step, TICK_S]
  have h6 : tick_step 10 6 = (8, true) := by norm_num [tick_step, TICK_S]
  refine ⟨by norm_num [ip_step, IP_REFRESH_S], by norm_num [IP_REFRESH_S],
    by norm_num [IP_REFRESH_S], ?_, ?_⟩
  · rintro ⟨k, hk⟩
    rw [IP_REFRESH_S] at hk
    have h2k : ((2 * k : ℤ) : ℚ) = ((3 : ℤ) : ℚ) := by push_cast; linarith
    have : (2 * k : ℤ) = 3 := Int.cast_injective h2k
    omega
  · simp only [tick_fires, h0, h2, h4, h6]
    norm_num

/-- **C8** (amended): the three tasks pace differently.  The slow poll sets
its next deadline to `now + interval` on *every* fire (wall-clock resync,
however small the lag).  The graph task always advances its deadline by
exactly one interval and never resynchronizes — so when it is more than one
interval late the advanced deadline is still due and the task fires again on
the next loop pass (a catch-up burst).  Only the display task advances by
one interval and resynchronizes to the current time, and it does so as soon
as the advanced deadline is not strictly in the future, i.e. when it lags by
at least one full interval. -/
theorem C8_schedule_pacing_amended :
    (∀ now d : ℚ, d ≤ now → ip_step now d = (now + IP_REFRESH_S, true)) ∧
    (∀ now d : ℚ, now < d → ip_step now d = (d, false)) ∧
    (∀ now d : ℚ, d ≤ now → tick_step now d = (d + TICK_S, true)) ∧
    (∀ now d : ℚ, now < d → tick_step now d = (d, false)) ∧
    (∀ now d : ℚ, d + TICK_S ≤ now → (tick_step now d).1 ≤ now ∧ (tick_step now d).2 = true) ∧
    (∀ now d : ℚ, now < d + target_dt → frame_step now d = d + target_dt) ∧
    (∀ now d : ℚ, d + target_dt ≤ now → frame_step now d = now) := by
  refine ⟨fun now d h => by rw [ip_step, if_pos h],
    fun now d h => by rw [ip_step, if_neg (by linarith)],
    fun now d h => by rw [tick_step, if_pos h],
    fun now d h => by rw [tick_step, if_neg (by linarith)],
    fun now d h => ?_,
    fun now d h => by rw [frame_step, if_pos (by linarith)],
    fun now d h => by rw [frame_step, if_neg (by linarith)]⟩
  have ht : TICK_S = 2 := rfl
  rw [ht] at h
  rw [tick_step, if_pos (by linarith)]
  exact ⟨h, rfl⟩

/-- Witness for `C8_schedule_pacing_amended` at concrete instants: fires and
skips of each task, the still-due deadline after a late graph fire, and both
display branches. -/
theorem C8_schedule_pacing_amended_witness :
    ip_step 1 0 = (1 + IP_REFRESH_S, true) ∧
    ip_step 0 1 = (1, false) ∧
    tick_step 1 0 = (0 + TICK_S, true) ∧
    tick_step 0 1 = (1, false) ∧
    ((tick_step 10 0).1 ≤ 10 ∧ (tick_step 10 0).2 = true) ∧
    frame_step 0 1 = 1 + target_dt ∧
    frame_step 10 0 = 10 :=
  ⟨C8_schedule_pacing_amended.1 1 0 (by decide),
   C8_schedule_pacing_amended.2.1 0 1 (by decide),
   C8_schedule_pacing_amended.2.2.1 1 0 (by decide),
   C8_schedule_pacing_amended.2.2.2.1 0 1 (by decide),
   C8_schedule_pacing_amended.2.2.2.2.1 10 0 (by norm_num [TICK_S]),
   C8_schedule_pacing_amended.2.2.2.2.2.1 0 1 (by norm_num [target_dt, TARGET_FPS]),
   C8_schedule_pacing_amended.2.2.2.2.2.2 10 0 (by norm_num [target_dt, TARGET_FPS])⟩
